import Mathlib

/-!
Verification of the submission-intake backend (`src/index.js`).

The file shallowly embeds the helpers (`safe`, `isValidEmail`), the three
POST handlers (`/api/contact`, `/api/consultation`, `/api/admin-data`) and
the behaviour of their external collaborators (the document store and the
mail channel) as explicit parameters, then proves the spec claims about
them.
-/

namespace Overseas

/-- A JSON-ish JavaScript value as it can arrive in `req.body` (plus
`undefined` for an absent field, as produced by `req.body?.field`). -/
inductive JSValue where
  | undefined : JSValue
  | null : JSValue
  | bool : Bool → JSValue
  | num : Int → JSValue
  | str : String → JSValue
  | arr : List JSValue → JSValue
  | obj : List (String × JSValue) → JSValue

mutual

/-- JavaScript `String(v)` coercion on our value model. -/
def jsToString : JSValue → String
  | .undefined => "undefined"
  | .null => "null"
  | .bool true => "true"
  | .bool false => "false"
  | .num n => toString n
  | .str s => s
  | .arr xs => jsArrJoin xs
  | .obj _ => "[object Object]"

/-- `Array.prototype.toString`: elements joined with commas. -/
def jsArrJoin : List JSValue → String
  | [] => ""
  | [x] => jsElemString x
  | x :: y :: xs => jsElemString x ++ "," ++ jsArrJoin (y :: xs)

/-- Inside an array, `null` and `undefined` render as the empty string. -/
def jsElemString : JSValue → String
  | .undefined => ""
  | .null => ""
  | .bool true => "true"
  | .bool false => "false"
  | .num n => toString n
  | .str s => s
  | .arr xs => jsArrJoin xs
  | .obj _ => "[object Object]"

end

/-- JavaScript nullish coalescing `v ?? d`. -/
def nullish (v : JSValue) (d : JSValue) : JSValue :=
  match v with
  | .undefined => d
  | .null => d
  | v => v

/-- The characters matched by JavaScript `\s` (the same set
`String.prototype.trim` removes). -/
def jsWsChars : List Char :=
  ['\u0009', '\u000A', '\u000B', '\u000C', '\u000D', '\u0020',
   '\u00A0', '\u1680', '\u2000', '\u2001', '\u2002', '\u2003',
   '\u2004', '\u2005', '\u2006', '\u2007', '\u2008', '\u2009',
   '\u200A', '\u2028', '\u2029', '\u202F', '\u205F', '\u3000',
   '\uFEFF']

/-- Is `c` JavaScript whitespace? -/
def isJsWs (c : Char) : Bool := jsWsChars.contains c

/-- JavaScript `String.prototype.trim` on a character list. -/
def trimChars (l : List Char) : List Char :=
  ((l.dropWhile isJsWs).reverse.dropWhile isJsWs).reverse

/-- `s.replace(/c/g, r)`: replace every occurrence of the character `c`
by the string `r`. -/
def replAll (c : Char) (r : List Char) : List Char → List Char
  | [] => []
  | x :: xs => (if x = c then r else [x]) ++ replAll c r xs

/-- The characters of `"&lt;"`. -/
def ltEsc : List Char := ['&', 'l', 't', ';']

/-- The characters of `"&gt;"`. -/
def gtEsc : List Char := ['&', 'g', 't', ';']

/-- `src/index.js` `safe`:
`String(v ?? "").replace(/</g, "&lt;").replace(/>/g, "&gt;").trim()`. -/
def safe (v : JSValue) : String :=
  String.mk (trimChars (replAll '>' gtEsc (replAll '<' ltEsc
    (jsToString (nullish v (.str ""))).toList)))

/-- A character allowed by the `[^\s@]` regex class: neither whitespace
nor `'@'`. -/
def okEmailChar (c : Char) : Bool := !isJsWs c && !(c = '@')

/-- The test of the anchored regex `^[^\s@]+@[^\s@]+\.[^\s@]+$`: the
string matches iff it decomposes as `a ++ "@" ++ b ++ "." ++ c` with
`a`, `b`, `c` nonempty runs of non-whitespace, non-`@` characters.
Expressed by searching for the positions `i` of the `'@'` and `j` of the
`'.'` delimiting such a decomposition. -/
def emailRegexMatch (l : List Char) : Bool :=
  (List.range l.length).any fun i =>
    (List.range l.length).any fun j =>
      (l.getD i ' ' = '@') && (l.getD j ' ' = '.') &&
      (1 ≤ i) && (i + 2 ≤ j) && (j + 2 ≤ l.length) &&
      ((List.range l.length).all fun k => (k = i) || okEmailChar (l.getD k ' '))

/-- `src/index.js` `isValidEmail`:
`/^[^\s@]+@[^\s@]+\.[^\s@]+$/.test(String(email || "").trim())`.
(For a string argument, `String(email || "")` is the identity: a falsy
string is already `""`.) -/
def isValidEmail (email : String) : Bool :=
  emailRegexMatch (trimChars email.toList)

/-- Modelled from the spec's words, for comparison with the code's
`isValidEmail` (claim about the accepted shape): "non-whitespace
characters before the `@`, and non-whitespace characters containing at
least one `.` after the `@`" — i.e. some position `i ≥ 1` holds `'@'`,
every character of the string is non-whitespace, and a `'.'` occurs
somewhere after position `i`. -/
def specEmailShape (l : List Char) : Bool :=
  l.all (fun c => !isJsWs c) &&
  ((List.range l.length).any fun i =>
    (1 ≤ i) && (l.getD i ' ' = '@') && ((l.drop (i + 1)).contains '.'))

/-- A persisted document of the `Contact` collection
(`models/Contact.js`): the four sanitized text fields plus the
store-assigned `_id` and the `createdAt` default timestamp. -/
structure ContactRecord where
  name : String
  email : String
  phone : String
  requirement : String
  id : Nat
  createdAt : Nat
deriving DecidableEq

/-- A persisted document of the `Consultation` collection
(`models/Consultation.js`). -/
structure ConsultationRecord where
  name : String
  email : String
  phone : String
  country : String
  level : String
  id : Nat
  createdAt : Nat
deriving DecidableEq

/-- The document store's two collections. -/
structure DB where
  contacts : List ContactRecord
  consultations : List ConsultationRecord
deriving DecidableEq

/-- Behaviour of one `Model.create` call: either the store assigns an id
and a `createdAt` timestamp and the write succeeds, or the write throws
with some error message. -/
inductive StoreBehavior where
  | succeed (id : Nat) (createdAt : Nat)
  | fail (err : String)

/-- Behaviour of one `sendAdminMail` call: resolves normally, resolves
with `{skipped: true}` because the transporter is disabled
(`MAIL_ENABLED !== "true"`), or rejects with an error (timeout, auth,
network, ...). -/
inductive NotifyResult where
  | sent
  | skipped
  | raise (err : String)

/-- Observable side effects of one request, as a spy double would record
them: attempted `Model.create` calls, `sendAdminMail` invocations, and
mail errors caught and logged by the handler's inner `catch`. -/
structure Trace where
  storeCreateCalls : Nat
  sendMailCalls : Nat
  mailErrorsLogged : Nat
deriving DecidableEq

/-- Did this `sendAdminMail` outcome land in the inner `catch`? -/
def mailErrCount : NotifyResult → Nat
  | .raise _ => 1
  | _ => 0

/-- The JSON body of a `/api/contact` request; each field is an
arbitrary value (absent fields are `undefined`). -/
structure ContactBody where
  name : JSValue
  email : JSValue
  phone : JSValue
  requirement : JSValue

/-- The JSON body of a `/api/consultation` request. -/
structure ConsultationBody where
  name : JSValue
  email : JSValue
  phone : JSValue
  country : JSValue
  level : JSValue

/-- Response of `/api/contact` (`src/index.js` lines 130–176). -/
inductive ContactResponse where
  /-- HTTP 400 with `{message}`. -/
  | validationError (message : String)
  /-- HTTP 200 with `{message, contact}`. -/
  | success (message : String) (contact : ContactRecord)
  /-- HTTP 500 with `{message}` from the outer `catch`. -/
  | persistenceError (message : String)
deriving DecidableEq

/-- Response of `/api/consultation` (`src/index.js` lines 181–232). -/
inductive ConsultationResponse where
  /-- HTTP 400 with `{message}`. -/
  | validationError (message : String)
  /-- HTTP 200 with `{message, consultation}`. -/
  | success (message : String) (consultation : ConsultationRecord)
  /-- HTTP 500 with `{message, error}` from the outer `catch`. -/
  | persistenceError (message : String) (error : String)
deriving DecidableEq

/-- `POST /api/contact` (`src/index.js` lines 130–176): sanitize each
field, reject empty fields then an invalid email with 400, otherwise
`Contact.create`; on create success, `sendAdminMail` inside an inner
`try` whose `catch` only logs, then 200 with the saved record; a create
failure reaches the outer `catch` and yields 500. The store and mail
behaviours are the request's collaborator doubles. -/
def postContact (store : StoreBehavior) (notify : NotifyResult)
    (body : ContactBody) (db : DB) : ContactResponse × DB × Trace :=
  let name := safe body.name
  let email := safe body.email
  let phone := safe body.phone
  let requirement := safe body.requirement
  if name = "" || email = "" || phone = "" || requirement = "" then
    (.validationError "All fields are required", db, ⟨0, 0, 0⟩)
  else if !isValidEmail email then
    (.validationError "Invalid email address", db, ⟨0, 0, 0⟩)
  else
    match store with
    | .fail _ => (.persistenceError "Something went wrong", db, ⟨1, 0, 0⟩)
    | .succeed nid ts =>
      let newContact : ContactRecord := ⟨name, email, phone, requirement, nid, ts⟩
      (.success "Contact saved successfully" newContact,
       ⟨newContact :: db.contacts, db.consultations⟩,
       ⟨1, 1, mailErrCount notify⟩)

/-- `POST /api/consultation` (`src/index.js` lines 181–232): same
pipeline with five fields; the 500 response additionally carries
`error.message`. -/
def postConsultation (store : StoreBehavior) (notify : NotifyResult)
    (body : ConsultationBody) (db : DB) : ConsultationResponse × DB × Trace :=
  let name := safe body.name
  let email := safe body.email
  let phone := safe body.phone
  let country := safe body.country
  let level := safe body.level
  if name = "" || email = "" || phone = "" || country = "" || level = "" then
    (.validationError "All fields are required", db, ⟨0, 0, 0⟩)
  else if !isValidEmail email then
    (.validationError "Invalid email address", db, ⟨0, 0, 0⟩)
  else
    match store with
    | .fail err => (.persistenceError "Failed to submit consultation request" err,
                    db, ⟨1, 0, 0⟩)
    | .succeed nid ts =>
      let doc : ConsultationRecord := ⟨name, email, phone, country, level, nid, ts⟩
      (.success "Consultation request submitted successfully" doc,
       ⟨db.contacts, doc :: db.consultations⟩,
       ⟨1, 1, mailErrCount notify⟩)

/-- Insert a record into a list sorted descending by `key`. -/
def insertDescBy (key : α → Nat) (r : α) : List α → List α
  | [] => [r]
  | x :: xs => if key x ≤ key r then r :: x :: xs else x :: insertDescBy key r xs

/-- Sort a list descending by `key`: models the store's
`.find().sort(\x7bcreatedAt: -1\x7d)` read. -/
def sortDescBy (key : α → Nat) : List α → List α
  | [] => []
  | x :: xs => insertDescBy key x (sortDescBy key xs)

/-- Is a JavaScript environment-variable slot falsy (`!process.env.X`)?
`none` models an unset variable; the empty string is also falsy. -/
def envFalsy : Option String → Bool
  | none => true
  | some s => s = ""

/-- Response of `/api/admin-data` (`src/index.js` lines 237–261). -/
inductive AdminResponse where
  /-- HTTP 500 `{message: "ACCESS_CODE missing in .env"}`. -/
  | configError (message : String)
  /-- HTTP 401 `{message: "Invalid Access Code"}`. -/
  | accessDenied (message : String)
  /-- HTTP 500 `{message: "Server Error"}` when a find/sort throws. -/
  | queryError (message : String)
  /-- HTTP 200 with counts and both full collections. -/
  | success (contactsCount : Nat) (consultationsCount : Nat)
      (contacts : List ContactRecord) (consultations : List ConsultationRecord)
deriving DecidableEq

/-- `POST /api/admin-data` (`src/index.js` lines 237–261): sanitize the
supplied code, 500 if `ACCESS_CODE` is unset (or empty, which is falsy),
401 on strict inequality with the configured code, otherwise both
collections sorted by `createdAt` descending with their counts.
`queryOk` is the double for the two `find().sort()` calls. -/
def postAdminData (accessCode : Option String) (codeVal : JSValue)
    (queryOk : Bool) (db : DB) : AdminResponse :=
  let code := safe codeVal
  if envFalsy accessCode then
    .configError "ACCESS_CODE missing in .env"
  else if code ≠ accessCode.getD "" then
    .accessDenied "Invalid Access Code"
  else if queryOk then
    let contacts := sortDescBy ContactRecord.createdAt db.contacts
    let consultations := sortDescBy ConsultationRecord.createdAt db.consultations
    .success contacts.length consultations.length contacts consultations
  else
    .queryError "Server Error"

/-- Are the four sanitized contact fields all non-empty (the handler's
first check passes)? -/
def contactFieldsPresent (body : ContactBody) : Bool :=
  !(safe body.name = "") && !(safe body.email = "") &&
  !(safe body.phone = "") && !(safe body.requirement = "")

/-- Does a contact body pass the whole validation step? -/
def contactValid (body : ContactBody) : Bool :=
  contactFieldsPresent body && isValidEmail (safe body.email)

/-- Are the five sanitized consultation fields all non-empty? -/
def consultationFieldsPresent (body : ConsultationBody) : Bool :=
  !(safe body.name = "") && !(safe body.email = "") && !(safe body.phone = "") &&
  !(safe body.country = "") && !(safe body.level = "")

/-- Does a consultation body pass the whole validation step? -/
def consultationValid (body : ConsultationBody) : Bool :=
  consultationFieldsPresent body && isValidEmail (safe body.email)

/-! ### Properties of the sanitizer -/

theorem mem_replAll {x c : Char} {r l : List Char} (h : x ∈ replAll c r l) :
    x ∈ r ∨ (x ∈ l ∧ x ≠ c) := by
  induction l with
  | nil => simp [replAll] at h
  | cons a t ih =>
    simp only [replAll] at h
    rcases List.mem_append.mp h with h1 | h2
    · by_cases hac : a = c
      · rw [if_pos hac] at h1
        exact Or.inl h1
      · rw [if_neg hac] at h1
        have hx : x = a := List.mem_singleton.mp h1
        refine Or.inr ⟨?_, ?_⟩
        · rw [hx]
          exact List.mem_cons_self a t
        · rw [hx]
          exact hac
    · rcases ih h2 with h3 | ⟨h4, h5⟩
      · exact Or.inl h3
      · exact Or.inr ⟨List.mem_cons_of_mem a h4, h5⟩

theorem replAll_eq_of_not_mem {c : Char} {r l : List Char} (h : c ∉ l) :
    replAll c r l = l := by
  induction l with
  | nil => rfl
  | cons a t ih =>
    simp only [replAll]
    have hac : ¬ a = c := fun e => h (e ▸ List.mem_cons_self a t)
    rw [if_neg hac, ih (fun hm => h (List.mem_cons_of_mem a hm))]
    rfl

theorem dropWhile_suffix_decomp (p : α → Bool) (l : List α) :
    ∃ t, t ++ l.dropWhile p = l := by
  induction l with
  | nil => exact ⟨[], rfl⟩
  | cons a t ih =>
    by_cases h : p a
    · obtain ⟨u, hu⟩ := ih
      exact ⟨a :: u, by simp [List.dropWhile_cons, h, hu]⟩
    · exact ⟨[], by simp [List.dropWhile_cons, h]⟩

theorem mem_trimChars {x : Char} {l : List Char} (h : x ∈ trimChars l) : x ∈ l := by
  unfold trimChars at h
  rw [List.mem_reverse] at h
  obtain ⟨t1, ht1⟩ := dropWhile_suffix_decomp isJsWs ((l.dropWhile isJsWs).reverse)
  have hx : x ∈ (l.dropWhile isJsWs).reverse := by
    have hmem : x ∈ t1 ++ (l.dropWhile isJsWs).reverse.dropWhile isJsWs :=
      List.mem_append.mpr (Or.inr h)
    rwa [ht1] at hmem
  rw [List.mem_reverse] at hx
  obtain ⟨t2, ht2⟩ := dropWhile_suffix_decomp isJsWs l
  have hmem2 : x ∈ t2 ++ l.dropWhile isJsWs := List.mem_append.mpr (Or.inr hx)
  rwa [ht2] at hmem2

theorem head_dropWhile_false {p : α → Bool} {l : List α} {c : α}
    (h : (l.dropWhile p).head? = some c) : p c = false := by
  induction l with
  | nil => simp [List.dropWhile] at h
  | cons a t ih =>
    cases hpa : p a with
    | true =>
      rw [List.dropWhile_cons, if_pos hpa] at h
      exact ih h
    | false =>
      rw [List.dropWhile_cons, if_neg (by simp [hpa])] at h
      simp only [List.head?_cons, Option.some_inj] at h
      rw [← h]
      exact hpa

theorem dropWhile_eq_self_of_head {p : α → Bool} {l : List α}
    (h : ∀ c, l.head? = some c → p c = false) : l.dropWhile p = l := by
  cases l with
  | nil => rfl
  | cons a t =>
    rw [List.dropWhile_cons, if_neg (show ¬ p a = true by simp [h a rfl])]

theorem dropWhile_idem (p : α → Bool) (l : List α) :
    (l.dropWhile p).dropWhile p = l.dropWhile p :=
  dropWhile_eq_self_of_head (fun _ hc => head_dropWhile_false hc)

theorem trimChars_head_ok {l : List Char} {c : Char}
    (h : (trimChars l).head? = some c) : isJsWs c = false := by
  obtain ⟨t, ht⟩ := dropWhile_suffix_decomp isJsWs (l.dropWhile isJsWs).reverse
  have hA : trimChars l ++ t.reverse = l.dropWhile isJsWs := by
    have h2 := congrArg List.reverse ht
    simpa [trimChars] using h2
  cases hX : trimChars l with
  | nil => rw [hX] at h; simp at h
  | cons x xs =>
    rw [hX] at h
    simp only [List.head?_cons, Option.some_inj] at h
    have hhead : (l.dropWhile isJsWs).head? = some x := by
      rw [← hA, hX]
      rfl
    have hws := head_dropWhile_false hhead
    rwa [h] at hws

theorem trimChars_idem (l : List Char) : trimChars (trimChars l) = trimChars l := by
  have h1 : (trimChars l).dropWhile isJsWs = trimChars l :=
    dropWhile_eq_self_of_head (fun _ hc => trimChars_head_ok hc)
  show ((((trimChars l).dropWhile isJsWs).reverse).dropWhile isJsWs).reverse = trimChars l
  rw [h1]
  show ((((l.dropWhile isJsWs).reverse.dropWhile isJsWs).reverse).reverse.dropWhile
    isJsWs).reverse = trimChars l
  rw [List.reverse_reverse, dropWhile_idem]
  rfl

theorem safe_toList (v : JSValue) :
    (safe v).toList = trimChars (replAll '>' gtEsc (replAll '<' ltEsc
      (jsToString (nullish v (.str ""))).toList)) := rfl

theorem not_mem_safe_lt (v : JSValue) : '<' ∉ (safe v).toList := by
  rw [safe_toList]
  intro h
  have h1 := mem_trimChars h
  rcases mem_replAll h1 with h2 | ⟨h3, _⟩
  · simp [gtEsc] at h2
  · rcases mem_replAll h3 with h4 | ⟨_, h5⟩
    · simp [ltEsc] at h4
    · exact h5 rfl

theorem not_mem_safe_gt (v : JSValue) : '>' ∉ (safe v).toList := by
  rw [safe_toList]
  intro h
  have h1 := mem_trimChars h
  rcases mem_replAll h1 with h2 | ⟨_, h5⟩
  · simp [gtEsc] at h2
  · exact h5 rfl

theorem trimChars_safe (v : JSValue) :
    trimChars (safe v).toList = (safe v).toList := by
  rw [safe_toList]
  exact trimChars_idem _

theorem safe_safe (v : JSValue) : safe (JSValue.str (safe v)) = safe v := by
  have hlt := not_mem_safe_lt v
  have hgt := not_mem_safe_gt v
  show String.mk (trimChars (replAll '>' gtEsc (replAll '<' ltEsc (safe v).toList))) = safe v
  rw [replAll_eq_of_not_mem hlt, replAll_eq_of_not_mem hgt, trimChars_safe]
  rfl

/-- C8 (amended): the sanitize step is a total function over arbitrary
input values (it is a Lean `def`, defined for every `JSValue`); an
absent (`undefined`) or `null` field becomes empty text, and every
output is fully HTML-escaped (contains no `<` and no `>`) and trimmed.
(The original claim's "non-text-typed values become empty text" is
false: see the counterexample.) -/
theorem sanitize_total_escaped_trimmed (v : JSValue) :
    safe JSValue.undefined = "" ∧ safe JSValue.null = "" ∧
    '<' ∉ (safe v).toList ∧ '>' ∉ (safe v).toList ∧
    trimChars (safe v).toList = (safe v).toList :=
  ⟨rfl, rfl, not_mem_safe_lt v, not_mem_safe_gt v, trimChars_safe v⟩

/-- C8 counterexample: a non-text-typed field value is NOT coerced to
empty text — `safe` renders the number `42` as `"42"` and the boolean
`true` as `"true"`, exactly as JavaScript `String(v ?? "")` does. -/
theorem sanitize_nonstring_counterexample :
    safe (JSValue.num 42) = "42" ∧ ¬ safe (JSValue.num 42) = "" ∧
    safe (JSValue.bool true) = "true" := by
  refine ⟨by decide, by decide, by decide⟩

/-- C9: sanitization is idempotent — applying `safe` to its own output
returns the output unchanged; in particular the already-escaped
sequence `&lt;` is not escaped again. -/
theorem sanitize_idempotent (v : JSValue) :
    safe (JSValue.str (safe v)) = safe v ∧ safe (JSValue.str "&lt;") = "&lt;" :=
  ⟨safe_safe v, by decide⟩

/-! ### Behaviour of the two intake handlers -/

theorem postContact_valid_succeed (body : ContactBody) (db : DB) (nid ts : Nat)
    (notify : NotifyResult) (h : contactValid body = true) :
    postContact (.succeed nid ts) notify body db =
      (.success "Contact saved successfully"
        ⟨safe body.name, safe body.email, safe body.phone, safe body.requirement, nid, ts⟩,
       ⟨⟨safe body.name, safe body.email, safe body.phone, safe body.requirement,
          nid, ts⟩ :: db.contacts, db.consultations⟩,
       ⟨1, 1, mailErrCount notify⟩) := by
  simp only [contactValid, contactFieldsPresent, Bool.and_eq_true, Bool.not_eq_true',
    decide_eq_false_iff_not] at h
  obtain ⟨⟨⟨⟨hn, he⟩, hp⟩, hr⟩, hv⟩ := h
  simp [postContact, hn, he, hp, hr, hv]

theorem postContact_valid_fail (body : ContactBody) (db : DB) (err : String)
    (notify : NotifyResult) (h : contactValid body = true) :
    postContact (.fail err) notify body db =
      (.persistenceError "Something went wrong", db, ⟨1, 0, 0⟩) := by
  simp only [contactValid, contactFieldsPresent, Bool.and_eq_true, Bool.not_eq_true',
    decide_eq_false_iff_not] at h
  obtain ⟨⟨⟨⟨hn, he⟩, hp⟩, hr⟩, hv⟩ := h
  simp [postContact, hn, he, hp, hr, hv]

theorem postContact_missing (store : StoreBehavior) (notify : NotifyResult)
    (body : ContactBody) (db : DB) (h : contactFieldsPresent body = false) :
    postContact store notify body db =
      (.validationError "All fields are required", db, ⟨0, 0, 0⟩) := by
  have hone : safe body.name = "" ∨ safe body.email = "" ∨ safe body.phone = "" ∨
      safe body.requirement = "" := by
    by_contra hno
    push_neg at hno
    obtain ⟨h1, h2, h3, h4⟩ := hno
    simp [contactFieldsPresent, h1, h2, h3, h4] at h
  rcases hone with h1 | h1 | h1 | h1 <;> simp [postContact, h1]

theorem postContact_bademail (store : StoreBehavior) (notify : NotifyResult)
    (body : ContactBody) (db : DB) (hf : contactFieldsPresent body = true)
    (hv : isValidEmail (safe body.email) = false) :
    postContact store notify body db =
      (.validationError "Invalid email address", db, ⟨0, 0, 0⟩) := by
  simp only [contactFieldsPresent, Bool.and_eq_true, Bool.not_eq_true',
    decide_eq_false_iff_not] at hf
  obtain ⟨⟨⟨hn, he⟩, hp⟩, hr⟩ := hf
  simp [postContact, hn, he, hp, hr, hv]

theorem postConsultation_valid_succeed (body : ConsultationBody) (db : DB)
    (nid ts : Nat) (notify : NotifyResult) (h : consultationValid body = true) :
    postConsultation (.succeed nid ts) notify body db =
      (.success "Consultation request submitted successfully"
        ⟨safe body.name, safe body.email, safe body.phone, safe body.country,
          safe body.level, nid, ts⟩,
       ⟨db.contacts, ⟨safe body.name, safe body.email, safe body.phone,
          safe body.country, safe body.level, nid, ts⟩ :: db.consultations⟩,
       ⟨1, 1, mailErrCount notify⟩) := by
  simp only [consultationValid, consultationFieldsPresent, Bool.and_eq_true,
    Bool.not_eq_true', decide_eq_false_iff_not] at h
  obtain ⟨⟨⟨⟨⟨hn, he⟩, hp⟩, hc⟩, hl⟩, hv⟩ := h
  simp [postConsultation, hn, he, hp, hc, hl, hv]

theorem postConsultation_valid_fail (body : ConsultationBody) (db : DB) (err : String)
    (notify : NotifyResult) (h : consultationValid body = true) :
    postConsultation (.fail err) notify body db =
      (.persistenceError "Failed to submit consultation request" err, db, ⟨1, 0, 0⟩) := by
  simp only [consultationValid, consultationFieldsPresent, Bool.and_eq_true,
    Bool.not_eq_true', decide_eq_false_iff_not] at h
  obtain ⟨⟨⟨⟨⟨hn, he⟩, hp⟩, hc⟩, hl⟩, hv⟩ := h
  simp [postConsultation, hn, he, hp, hc, hl, hv]

theorem postConsultation_missing (store : StoreBehavior) (notify : NotifyResult)
    (body : ConsultationBody) (db : DB) (h : consultationFieldsPresent body = false) :
    postConsultation store notify body db =
      (.validationError "All fields are required", db, ⟨0, 0, 0⟩) := by
  have hone : safe body.name = "" ∨ safe body.email = "" ∨ safe body.phone = "" ∨
      safe body.country = "" ∨ safe body.level = "" := by
    by_contra hno
    push_neg at hno
    obtain ⟨h1, h2, h3, h4, h5⟩ := hno
    simp [consultationFieldsPresent, h1, h2, h3, h4, h5] at h
  rcases hone with h1 | h1 | h1 | h1 | h1 <;> simp [postConsultation, h1]

theorem postConsultation_bademail (store : StoreBehavior) (notify : NotifyResult)
    (body : ConsultationBody) (db : DB) (hf : consultationFieldsPresent body = true)
    (hv : isValidEmail (safe body.email) = false) :
    postConsultation store notify body db =
      (.validationError "Invalid email address", db, ⟨0, 0, 0⟩) := by
  simp only [consultationFieldsPresent, Bool.and_eq_true, Bool.not_eq_true',
    decide_eq_false_iff_not] at hf
  obtain ⟨⟨⟨⟨hn, he⟩, hp⟩, hc⟩, hl⟩ := hf
  simp [postConsultation, hn, he, hp, hc, hl, hv]

/-- C1: for a submission that passes validation and whose persistence
step succeeds, a `sendAdminMail` rejection with any error is caught
inside the handler: the response is still the 200 success carrying the
record that was persisted (it heads the contacts collection), and it
is identical to the response produced when the mail succeeds. -/
theorem contact_notifier_isolated (nid ts : Nat) (err : String) (body : ContactBody)
    (db : DB) (h : contactValid body = true) :
    ∃ r : ContactRecord,
      (postContact (.succeed nid ts) (.raise err) body db).1 =
        .success "Contact saved successfully" r ∧
      ((postContact (.succeed nid ts) (.raise err) body db).2.1).contacts =
        r :: db.contacts ∧
      (postContact (.succeed nid ts) (.raise err) body db).1 =
        (postContact (.succeed nid ts) .sent body db).1 := by
  rw [postContact_valid_succeed body db nid ts (.raise err) h,
    postContact_valid_succeed body db nid ts .sent h]
  exact ⟨_, rfl, rfl, rfl⟩

/-- C1 witness at a concrete valid submission and a forced mail error. -/
theorem contact_notifier_isolated_witness :
    contactValid ⟨.str "Ann", .str "ann@x.com", .str "1", .str "visa"⟩ = true ∧
    ∃ r : ContactRecord,
      (postContact (.succeed 7 99) (.raise "ETIMEDOUT")
        ⟨.str "Ann", .str "ann@x.com", .str "1", .str "visa"⟩ ⟨[], []⟩).1 =
        .success "Contact saved successfully" r ∧
      ((postContact (.succeed 7 99) (.raise "ETIMEDOUT")
        ⟨.str "Ann", .str "ann@x.com", .str "1", .str "visa"⟩ ⟨[], []⟩).2.1).contacts =
        r :: ([] : List ContactRecord) ∧
      (postContact (.succeed 7 99) (.raise "ETIMEDOUT")
        ⟨.str "Ann", .str "ann@x.com", .str "1", .str "visa"⟩ ⟨[], []⟩).1 =
        (postContact (.succeed 7 99) .sent
          ⟨.str "Ann", .str "ann@x.com", .str "1", .str "visa"⟩ ⟨[], []⟩).1 :=
  ⟨by decide, contact_notifier_isolated 7 99 "ETIMEDOUT" _ ⟨[], []⟩ (by decide)⟩

/-- C2: for a submission that passes validation, a store failure makes
the handler return the persistence-error response, the collections are
unchanged, and `sendAdminMail` is never invoked (`sendMailCalls = 0`),
for both submission kinds. -/
theorem persistence_failure_short_circuit :
    (∀ (err : String) (notify : NotifyResult) (body : ContactBody) (db : DB),
      contactValid body = true →
        postContact (.fail err) notify body db =
          (.persistenceError "Something went wrong", db, ⟨1, 0, 0⟩)) ∧
    (∀ (err : String) (notify : NotifyResult) (body : ConsultationBody) (db : DB),
      consultationValid body = true →
        postConsultation (.fail err) notify body db =
          (.persistenceError "Failed to submit consultation request" err,
            db, ⟨1, 0, 0⟩)) :=
  ⟨fun err notify body db h => postContact_valid_fail body db err notify h,
   fun err notify body db h => postConsultation_valid_fail body db err notify h⟩

/-- C2 witness: a forced store failure on a concrete valid submission. -/
theorem persistence_failure_short_circuit_witness :
    contactValid ⟨.str "Ann", .str "ann@x.com", .str "1", .str "visa"⟩ = true ∧
    postContact (.fail "down") .sent
      ⟨.str "Ann", .str "ann@x.com", .str "1", .str "visa"⟩ ⟨[], []⟩ =
      (.persistenceError "Something went wrong", ⟨[], []⟩, ⟨1, 0, 0⟩) :=
  ⟨by decide,
   persistence_failure_short_circuit.1 "down" .sent
     ⟨.str "Ann", .str "ann@x.com", .str "1", .str "visa"⟩ ⟨[], []⟩ (by decide)⟩

/-- C3: when any required field is empty after sanitization, both
handlers return the 400 validation error, the store is never written
(`storeCreateCalls = 0`) and both collections are returned unchanged. -/
theorem validation_failure_no_write :
    (∀ (store : StoreBehavior) (notify : NotifyResult) (body : ContactBody) (db : DB),
      contactFieldsPresent body = false →
        postContact store notify body db =
          (.validationError "All fields are required", db, ⟨0, 0, 0⟩)) ∧
    (∀ (store : StoreBehavior) (notify : NotifyResult) (body : ConsultationBody)
        (db : DB),
      consultationFieldsPresent body = false →
        postConsultation store notify body db =
          (.validationError "All fields are required", db, ⟨0, 0, 0⟩)) :=
  ⟨postContact_missing, postConsultation_missing⟩

/-- C3 witness: a submission with an absent `name` field. -/
theorem validation_failure_no_write_witness :
    contactFieldsPresent ⟨.undefined, .str "ann@x.com", .str "1", .str "visa"⟩ = false ∧
    postContact (.succeed 7 99) .sent
      ⟨.undefined, .str "ann@x.com", .str "1", .str "visa"⟩ ⟨[], []⟩ =
      (.validationError "All fields are required", ⟨[], []⟩, ⟨0, 0, 0⟩) :=
  ⟨by decide,
   validation_failure_no_write.1 (.succeed 7 99) .sent
     ⟨.undefined, .str "ann@x.com", .str "1", .str "visa"⟩ ⟨[], []⟩ (by decide)⟩

/-- C4: for a valid submission whose persistence succeeds, the response
embeds the full persisted record: its text fields are exactly the
sanitized (`safe`) input fields, it carries the store-assigned id and
`createdAt` timestamp, and it is the record prepended to the contacts
collection. -/
theorem success_returns_persisted_record (nid ts : Nat) (notify : NotifyResult)
    (body : ContactBody) (db : DB) (h : contactValid body = true) :
    ∃ r : ContactRecord,
      (postContact (.succeed nid ts) notify body db).1 =
        .success "Contact saved successfully" r ∧
      r.name = safe body.name ∧ r.email = safe body.email ∧
      r.phone = safe body.phone ∧ r.requirement = safe body.requirement ∧
      r.id = nid ∧ r.createdAt = ts ∧
      (postContact (.succeed nid ts) notify body db).2.1.contacts = r :: db.contacts := by
  rw [postContact_valid_succeed body db nid ts notify h]
  exact ⟨_, rfl, rfl, rfl, rfl, rfl, rfl, rfl, rfl⟩

/-- C4 witness at the spec's concrete scenario: input name `"Jo<e>"` is
persisted and returned as `"Jo&lt;e&gt;"`. -/
theorem success_returns_persisted_record_witness :
    contactValid ⟨.str "Jo<e>", .str "jo@x.com", .str "123", .str "visa"⟩ = true ∧
    safe (JSValue.str "Jo<e>") = "Jo&lt;e&gt;" ∧
    ∃ r : ContactRecord,
      (postContact (.succeed 5 77) .sent
        ⟨.str "Jo<e>", .str "jo@x.com", .str "123", .str "visa"⟩ ⟨[], []⟩).1 =
        .success "Contact saved successfully" r ∧
      r.name = safe (JSValue.str "Jo<e>") ∧ r.email = safe (JSValue.str "jo@x.com") ∧
      r.phone = safe (JSValue.str "123") ∧ r.requirement = safe (JSValue.str "visa") ∧
      r.id = 5 ∧ r.createdAt = 77 ∧
      (postContact (.succeed 5 77) .sent
        ⟨.str "Jo<e>", .str "jo@x.com", .str "123", .str "visa"⟩ ⟨[], []⟩).2.1.contacts =
        r :: ([] : List ContactRecord) :=
  ⟨by decide, by decide,
   success_returns_persisted_record 5 77 .sent
     ⟨.str "Jo<e>", .str "jo@x.com", .str "123", .str "visa"⟩ ⟨[], []⟩ (by decide)⟩

/-- C10: the required-field check runs before the email-shape check: a
submission with an empty required field gets the missing-fields message
regardless of the email, and the invalid-email message can only be
produced when every required field is non-empty — for both kinds. -/
theorem required_fields_checked_first :
    (∀ (store : StoreBehavior) (notify : NotifyResult) (body : ContactBody) (db : DB),
      contactFieldsPresent body = false →
        (postContact store notify body db).1 =
          .validationError "All fields are required") ∧
    (∀ (store : StoreBehavior) (notify : NotifyResult) (body : ContactBody) (db : DB),
      (postContact store notify body db).1 =
        .validationError "Invalid email address" →
        contactFieldsPresent body = true) ∧
    (∀ (store : StoreBehavior) (notify : NotifyResult) (body : ConsultationBody)
        (db : DB),
      consultationFieldsPresent body = false →
        (postConsultation store notify body db).1 =
          .validationError "All fields are required") ∧
    (∀ (store : StoreBehavior) (notify : NotifyResult) (body : ConsultationBody)
        (db : DB),
      (postConsultation store notify body db).1 =
        .validationError "Invalid email address" →
        consultationFieldsPresent body = true) := by
  refine ⟨?_, ?_, ?_, ?_⟩
  · intro store notify body db h
    rw [postContact_missing store notify body db h]
  · intro store notify body db h
    by_contra hf
    rw [Bool.not_eq_true] at hf
    rw [postContact_missing store notify body db hf] at h
    simp at h
  · intro store notify body db h
    rw [postConsultation_missing store notify body db h]
  · intro store notify body db h
    by_contra hf
    rw [Bool.not_eq_true] at hf
    rw [postConsultation_missing store notify body db hf] at h
    simp at h

/-- C10 witness: empty name together with an invalid email still yields
the missing-fields message. -/
theorem required_fields_checked_first_witness :
    contactFieldsPresent ⟨.str "", .str "notanemail", .str "1", .str "visa"⟩ = false ∧
    (postContact (.succeed 7 99) .sent
      ⟨.str "", .str "notanemail", .str "1", .str "visa"⟩ ⟨[], []⟩).1 =
      .validationError "All fields are required" :=
  ⟨by decide,
   required_fields_checked_first.1 (.succeed 7 99) .sent
     ⟨.str "", .str "notanemail", .str "1", .str "visa"⟩ ⟨[], []⟩ (by decide)⟩

/-! ### The admin gate -/

theorem insertDescBy_perm (key : α → Nat) (r : α) (l : List α) :
    (insertDescBy key r l).Perm (r :: l) := by
  induction l with
  | nil => exact List.Perm.refl _
  | cons x xs ih =>
    by_cases h : key x ≤ key r
    · simp only [insertDescBy, if_pos h]
      exact List.Perm.refl _
    · simp only [insertDescBy, if_neg h]
      exact (ih.cons x).trans (List.Perm.swap r x xs)

theorem sortDescBy_perm (key : α → Nat) (l : List α) : (sortDescBy key l).Perm l := by
  induction l with
  | nil => exact List.Perm.refl _
  | cons x xs ih =>
    exact (insertDescBy_perm key x (sortDescBy key xs)).trans (ih.cons x)

theorem pairwise_insertDescBy (key : α → Nat) (r : α) (l : List α)
    (h : l.Pairwise (fun a b => key b ≤ key a)) :
    (insertDescBy key r l).Pairwise (fun a b => key b ≤ key a) := by
  induction l with
  | nil => simp [insertDescBy]
  | cons x xs ih =>
    rw [List.pairwise_cons] at h
    obtain ⟨hx, hxs⟩ := h
    by_cases hle : key x ≤ key r
    · simp only [insertDescBy, if_pos hle]
      rw [List.pairwise_cons]
      refine ⟨?_, List.pairwise_cons.mpr ⟨hx, hxs⟩⟩
      intro y hy
      rcases List.mem_cons.mp hy with rfl | hy'
      · exact hle
      · exact le_trans (hx y hy') hle
    · simp only [insertDescBy, if_neg hle]
      rw [List.pairwise_cons]
      refine ⟨?_, ih hxs⟩
      intro y hy
      have hy2 : y ∈ r :: xs := (insertDescBy_perm key r xs).mem_iff.mp hy
      rcases List.mem_cons.mp hy2 with rfl | hy'
      · exact le_of_not_le hle
      · exact hx y hy'

theorem pairwise_sortDescBy (key : α → Nat) (l : List α) :
    (sortDescBy key l).Pairwise (fun a b => key b ≤ key a) := by
  induction l with
  | nil => simp [sortDescBy]
  | cons x xs ih => exact pairwise_insertDescBy key x _ ih

theorem postAdminData_noconfig (access : Option String) (codeVal : JSValue)
    (q : Bool) (db : DB) (h : envFalsy access = true) :
    postAdminData access codeVal q db = .configError "ACCESS_CODE missing in .env" := by
  simp [postAdminData, h]

theorem postAdminData_denied (s : String) (codeVal : JSValue) (q : Bool) (db : DB)
    (hs : s ≠ "") (hne : safe codeVal ≠ s) :
    postAdminData (some s) codeVal q db = .accessDenied "Invalid Access Code" := by
  simp [postAdminData, envFalsy, hs, hne]

theorem postAdminData_grant (s : String) (codeVal : JSValue) (db : DB)
    (hs : s ≠ "") (heq : safe codeVal = s) :
    postAdminData (some s) codeVal true db =
      .success (sortDescBy ContactRecord.createdAt db.contacts).length
        (sortDescBy ConsultationRecord.createdAt db.consultations).length
        (sortDescBy ContactRecord.createdAt db.contacts)
        (sortDescBy ConsultationRecord.createdAt db.consultations) := by
  simp [postAdminData, envFalsy, hs, heq]

theorem postAdminData_queryfail (s : String) (codeVal : JSValue) (db : DB)
    (hs : s ≠ "") (heq : safe codeVal = s) :
    postAdminData (some s) codeVal false db = .queryError "Server Error" := by
  simp [postAdminData, envFalsy, hs, heq]

/-- C6: the admin endpoint returns the configuration error whenever no
access code is configured (`ACCESS_CODE` unset — or empty, which is
equally falsy), regardless of the supplied code; and with a configured
code `s` it returns the 401 access-denied response exactly when the
sanitized supplied code differs from `s` by string equality. -/
theorem admin_gate (access : Option String) (codeVal : JSValue) (q : Bool) (db : DB) :
    (envFalsy access = true →
      postAdminData access codeVal q db = .configError "ACCESS_CODE missing in .env") ∧
    (∀ s : String, access = some s → s ≠ "" →
      (postAdminData access codeVal q db = .accessDenied "Invalid Access Code" ↔
        safe codeVal ≠ s)) := by
  constructor
  · exact postAdminData_noconfig access codeVal q db
  · rintro s rfl hs
    constructor
    · intro hdeny
      by_contra heqn
      cases q with
      | true =>
        rw [postAdminData_grant s codeVal db hs heqn] at hdeny
        simp at hdeny
      | false =>
        rw [postAdminData_queryfail s codeVal db hs heqn] at hdeny
        simp at hdeny
    · exact postAdminData_denied s codeVal q db hs

/-- C6 witness: unset code, wrong code `"wrong"` against `"CLYRA2025"`. -/
theorem admin_gate_witness :
    (postAdminData none (.str "x") true ⟨[], []⟩ =
      .configError "ACCESS_CODE missing in .env") ∧
    (postAdminData (some "CLYRA2025") (.str "wrong") true ⟨[], []⟩ =
      .accessDenied "Invalid Access Code" ↔ safe (.str "wrong") ≠ "CLYRA2025") :=
  ⟨(admin_gate none (.str "x") true ⟨[], []⟩).1 rfl,
   (admin_gate (some "CLYRA2025") (.str "wrong") true ⟨[], []⟩).2 "CLYRA2025" rfl
     (by decide)⟩

/-- C7: on a successful admin-data call, the response carries both
collections in full — each a permutation of the stored collection (no
pagination, filtering or redaction of records), sorted by `createdAt`
descending — together with the two counts, which equal the collection
sizes. -/
theorem admin_success_full_sorted (s : String) (codeVal : JSValue) (db : DB)
    (hs : s ≠ "") (heq : safe codeVal = s) :
    ∃ (cs : List ContactRecord) (qs : List ConsultationRecord),
      postAdminData (some s) codeVal true db = .success cs.length qs.length cs qs ∧
      cs.Perm db.contacts ∧
      cs.Pairwise (fun a b => b.createdAt ≤ a.createdAt) ∧
      cs.length = db.contacts.length ∧
      qs.Perm db.consultations ∧
      qs.Pairwise (fun a b => b.createdAt ≤ a.createdAt) ∧
      qs.length = db.consultations.length :=
  ⟨sortDescBy ContactRecord.createdAt db.contacts,
   sortDescBy ConsultationRecord.createdAt db.consultations,
   postAdminData_grant s codeVal db hs heq,
   sortDescBy_perm ContactRecord.createdAt db.contacts,
   pairwise_sortDescBy ContactRecord.createdAt db.contacts,
   (sortDescBy_perm ContactRecord.createdAt db.contacts).length_eq,
   sortDescBy_perm ConsultationRecord.createdAt db.consultations,
   pairwise_sortDescBy ConsultationRecord.createdAt db.consultations,
   (sortDescBy_perm ConsultationRecord.createdAt db.consultations).length_eq⟩

/-- C7 witness on a two-record store with the correct code supplied. -/
theorem admin_success_full_sorted_witness :
    safe (JSValue.str "CLYRA2025") = "CLYRA2025" ∧
    ∃ (cs : List ContactRecord) (qs : List ConsultationRecord),
      postAdminData (some "CLYRA2025") (.str "CLYRA2025") true
        ⟨[⟨"a", "a@x.co", "1", "r", 1, 10⟩, ⟨"b", "b@x.co", "2", "r", 2, 20⟩], []⟩ =
        .success cs.length qs.length cs qs ∧
      cs.Perm [⟨"a", "a@x.co", "1", "r", 1, 10⟩, ⟨"b", "b@x.co", "2", "r", 2, 20⟩] ∧
      cs.Pairwise (fun a b => b.createdAt ≤ a.createdAt) ∧
      cs.length = [⟨"a", "a@x.co", "1", "r", 1, 10⟩,
        (⟨"b", "b@x.co", "2", "r", 2, 20⟩ : ContactRecord)].length ∧
      qs.Perm ([] : List ConsultationRecord) ∧
      qs.Pairwise (fun a b => b.createdAt ≤ a.createdAt) ∧
      qs.length = ([] : List ConsultationRecord).length :=
  ⟨by decide,
   admin_success_full_sorted "CLYRA2025" (.str "CLYRA2025")
     ⟨[⟨"a", "a@x.co", "1", "r", 1, 10⟩, ⟨"b", "b@x.co", "2", "r", 2, 20⟩], []⟩
     (by decide) (by decide)⟩

/-! ### The email-shape claim -/

/-- The decomposition semantics of the anchored regex
`^[^\s@]+@[^\s@]+\.[^\s@]+$`: some split `a ++ "@" ++ b ++ "." ++ c`
with all three parts nonempty and made of non-whitespace, non-`@`
characters. -/
def EmailDecomp (l : List Char) : Prop :=
  ∃ a b c : List Char, l = a ++ '@' :: (b ++ '.' :: c) ∧
    a ≠ [] ∧ b ≠ [] ∧ c ≠ [] ∧
    (∀ x ∈ a, okEmailChar x = true) ∧ (∀ x ∈ b, okEmailChar x = true) ∧
    (∀ x ∈ c, okEmailChar x = true)

theorem getD_append_middle (u v : List Char) (x d : Char) :
    (u ++ x :: v).getD u.length d = x := by
  induction u with
  | nil => rfl
  | cons a t ih =>
    simp only [List.cons_append, List.length_cons, List.getD_cons_succ]
    exact ih

theorem getD_append_left_of_lt (u v : List Char) (d : Char) (k : Nat)
    (h : k < u.length) : (u ++ v).getD k d = u.getD k d := by
  induction u generalizing k with
  | nil => simp at h
  | cons a t ih =>
    cases k with
    | zero => rfl
    | succ n =>
      simp only [List.cons_append, List.getD_cons_succ]
      exact ih n (Nat.lt_of_succ_lt_succ (by simpa using h))

theorem getD_append_right_of_le (u v : List Char) (d : Char) (k : Nat)
    (h : u.length ≤ k) : (u ++ v).getD k d = v.getD (k - u.length) d := by
  induction u generalizing k with
  | nil => simp
  | cons a t ih =>
    cases k with
    | zero => simp at h
    | succ n =>
      simp only [List.cons_append, List.getD_cons_succ, List.length_cons]
      rw [ih n (by simpa using h)]
      congr 1
      omega

theorem emailRegexMatch_iff (l : List Char) :
    emailRegexMatch l = true ↔ EmailDecomp l := by
  constructor
  · intro h
    simp only [emailRegexMatch, List.any_eq_true, List.mem_range, Bool.and_eq_true,
      decide_eq_true_eq, List.all_eq_true, Bool.or_eq_true] at h
    obtain ⟨i, hilen, j, hjlen, ⟨⟨⟨⟨hat, hdot⟩, h1i⟩, hij⟩, hjl⟩, hall⟩ := h
    rw [List.getD_eq_getElem l ' ' hilen] at hat
    rw [List.getD_eq_getElem l ' ' hjlen] at hdot
    refine ⟨l.take i, (l.drop (i + 1)).take (j - (i + 1)), l.drop (j + 1),
      ?_, ?_, ?_, ?_, ?_, ?_, ?_⟩
    · have e2 : l.drop i = l[i] :: l.drop (i + 1) := List.drop_eq_getElem_cons hilen
      have e4 : (l.drop (i + 1)).drop (j - (i + 1)) = l.drop j := by
        rw [List.drop_drop]
        congr 1
        omega
      have e5 : l.drop j = l[j] :: l.drop (j + 1) := List.drop_eq_getElem_cons hjlen
      calc l = l.take i ++ l.drop i := (List.take_append_drop i l).symm
        _ = l.take i ++ ('@' :: l.drop (i + 1)) := by rw [e2, hat]
        _ = l.take i ++ ('@' :: ((l.drop (i + 1)).take (j - (i + 1)) ++
              (l.drop (i + 1)).drop (j - (i + 1)))) := by rw [List.take_append_drop]
        _ = l.take i ++ ('@' :: ((l.drop (i + 1)).take (j - (i + 1)) ++
              ('.' :: l.drop (j + 1)))) := by rw [e4, e5, hdot]
    · apply List.ne_nil_of_length_pos
      rw [List.length_take]
      exact lt_min (by omega) (by omega)
    · apply List.ne_nil_of_length_pos
      rw [List.length_take, List.length_drop]
      exact lt_min (by omega) (by omega)
    · apply List.ne_nil_of_length_pos
      rw [List.length_drop]
      omega
    · intro x hx
      obtain ⟨k, hk, hkx⟩ := List.mem_iff_getElem.mp hx
      have hki : k < i := by
        rw [List.length_take] at hk
        exact (lt_min_iff.mp hk).1
      rcases hall k (by omega) with he | hok
      · exact absurd he (by omega)
      · rw [List.getD_eq_getElem l ' ' (by omega)] at hok
        rw [← hkx, List.getElem_take]
        exact hok
    · intro x hx
      obtain ⟨k, hk, hkx⟩ := List.mem_iff_getElem.mp hx
      have hkb : k < j - (i + 1) := by
        rw [List.length_take] at hk
        exact (lt_min_iff.mp hk).1
      rcases hall (i + 1 + k) (by omega) with he | hok
      · exact absurd he (by omega)
      · rw [List.getD_eq_getElem l ' ' (by omega)] at hok
        rw [← hkx, List.getElem_take, List.getElem_drop]
        exact hok
    · intro x hx
      obtain ⟨k, hk, hkx⟩ := List.mem_iff_getElem.mp hx
      rw [List.length_drop] at hk
      rcases hall (j + 1 + k) (by omega) with he | hok
      · exact absurd he (by omega)
      · rw [List.getD_eq_getElem l ' ' (by omega)] at hok
        rw [← hkx, List.getElem_drop]
        exact hok
  · rintro ⟨a, b, c, rfl, ha, hb, hc, hoa, hob, hoc⟩
    have h0a : 0 < a.length := List.length_pos.mpr ha
    have h0b : 0 < b.length := List.length_pos.mpr hb
    have h0c : 0 < c.length := List.length_pos.mpr hc
    have hlen : (a ++ '@' :: (b ++ '.' :: c)).length =
        a.length + b.length + c.length + 2 := by
      simp only [List.length_append, List.length_cons]
      omega
    simp only [emailRegexMatch, List.any_eq_true, List.mem_range, Bool.and_eq_true,
      decide_eq_true_eq, List.all_eq_true, Bool.or_eq_true]
    refine ⟨a.length, by rw [hlen]; omega, a.length + 1 + b.length,
      by rw [hlen]; omega,
      ⟨⟨⟨⟨?_, ?_⟩, by omega⟩, by omega⟩, by rw [hlen]; omega⟩, ?_⟩
    · exact getD_append_middle a (b ++ '.' :: c) '@' ' '
    · have hassoc : a ++ '@' :: (b ++ '.' :: c) = (a ++ '@' :: b) ++ '.' :: c := by
        simp
      rw [hassoc, show a.length + 1 + b.length = (a ++ '@' :: b).length by
        (simp only [List.length_append, List.length_cons]; omega)]
      exact getD_append_middle (a ++ '@' :: b) c '.' ' '
    · intro k hk
      rw [hlen] at hk
      by_cases hki : k = a.length
      · exact Or.inl hki
      right
      by_cases hlt : k < a.length
      · rw [getD_append_left_of_lt _ _ _ _ hlt, List.getD_eq_getElem a ' ' hlt]
        exact hoa _ (List.getElem_mem hlt)
      · rw [getD_append_right_of_le _ _ _ _ (by omega)]
        rw [show k - a.length = (k - a.length - 1) + 1 by omega, List.getD_cons_succ]
        by_cases hmb : k - a.length - 1 < b.length
        · rw [getD_append_left_of_lt _ _ _ _ hmb, List.getD_eq_getElem b ' ' hmb]
          exact hob _ (List.getElem_mem hmb)
        · by_cases hmeq : k - a.length - 1 = b.length
          · rw [hmeq, getD_append_middle b c '.' ' ']
            decide
          · rw [getD_append_right_of_le _ _ _ _ (by omega)]
            rw [show k - a.length - 1 - b.length = (k - a.length - 1 - b.length - 1) + 1
                by omega, List.getD_cons_succ]
            have hcb : k - a.length - 1 - b.length - 1 < c.length := by omega
            rw [List.getD_eq_getElem c ' ' hcb]
            exact hoc _ (List.getElem_mem hcb)

/-- C5 counterexample: the spec's shape ("non-whitespace before the `@`,
non-whitespace containing at least one `.` after") accepts `"a@b."`,
`"a@.b"` and `"a@@b.c"`, but the code's `isValidEmail` rejects all
three — the regex additionally requires a non-whitespace, non-`@`
character on both sides of the dot and forbids `@` inside the parts. -/
theorem email_shape_counterexample :
    specEmailShape ("a@b.".toList) = true ∧ isValidEmail "a@b." = false ∧
    specEmailShape ("a@.b".toList) = true ∧ isValidEmail "a@.b" = false ∧
    specEmailShape ("a@@b.c".toList) = true ∧ isValidEmail "a@@b.c" = false :=
  ⟨by decide, by decide, by decide, by decide, by decide, by decide⟩

/-- C5 (amended): the email check accepts exactly the strings whose
trimmed form decomposes as `local@domain.tld` with `local`, `domain`
and `tld` nonempty and free of whitespace and of `'@'` (so the `.`
after the `@` must have such a character on both sides, and no extra
`@` may occur anywhere); and every contact submission whose sanitized
email fails the check receives a 400 validation error. -/
theorem email_validation (s : String) (store : StoreBehavior) (notify : NotifyResult)
    (body : ContactBody) (db : DB) :
    (isValidEmail s = true ↔ EmailDecomp (trimChars s.toList)) ∧
    (isValidEmail (safe body.email) = false →
      ∃ m, (postContact store notify body db).1 =
        ContactResponse.validationError m) := by
  constructor
  · exact emailRegexMatch_iff (trimChars s.toList)
  · intro hv
    by_cases hf : contactFieldsPresent body = true
    · refine ⟨"Invalid email address", ?_⟩
      rw [postContact_bademail store notify body db hf hv]
    · refine ⟨"All fields are required", ?_⟩
      rw [postContact_missing store notify body db (by simpa using hf)]

/-- C5 witness: a valid address satisfies the decomposition; a
submission with the email `"no-at-sign"` is rejected with a 400. -/
theorem email_validation_witness :
    (isValidEmail "jo@x.com" = true ↔ EmailDecomp (trimChars "jo@x.com".toList)) ∧
    (∃ m, (postContact (.succeed 1 2) .sent
      ⟨.str "Ann", .str "no-at-sign", .str "1", .str "visa"⟩ ⟨[], []⟩).1 =
        ContactResponse.validationError m) :=
  ⟨(email_validation "jo@x.com" (.succeed 1 2) .sent
      ⟨.str "Ann", .str "no-at-sign", .str "1", .str "visa"⟩ ⟨[], []⟩).1,
   (email_validation "jo@x.com" (.succeed 1 2) .sent
      ⟨.str "Ann", .str "no-at-sign", .str "1", .str "visa"⟩ ⟨[], []⟩).2 (by decide)⟩

end Overseas
